import Mathlib

/-!
# Verification of `Consumir API/MoviesAPI.py`

A shallow embedding of the movie-search console program. JSON values are a
tagged union; Python floats are modelled as exact rationals `ℚ`; fallible
Python code (code paths that raise) returns `Except PyErr _`. Decoded JSON
objects are association lists with distinct keys, looked up first-match.
-/

set_option autoImplicit false

namespace MoviesAPI

/-- A decoded JSON-like value, as returned by `resp.json()` (spec §4.1:
"mapping from string to arbitrary structured value"; spec §9: tagged union
string | number | boolean | null | sequence | nested mapping). Numbers are
modelled as exact rationals. -/
inductive Json where
  | null
  | bool (b : Bool)
  | num (q : ℚ)
  | str (s : String)
  | arr (xs : List Json)
  | obj (kvs : List (String × Json))

/-- The Python exceptions the program can raise. `httpError` carries the
response status and decoded body context (`requests.HTTPError` from
`raise_for_status`, source line 49); `runtimeError` is the missing-credential
error (source lines 29-31); the rest are the builtin exceptions Python raises
on the dynamic operations in `find_by_title` and `short_str`. Exception
message text is abstracted away (only the constructor identity and the
presenter's message prefix are observable in the claims). -/
inductive PyErr where
  | httpError (status : Nat) (body : Option Json)
  | jsonDecodeError
  | typeError
  | attributeError
  | valueError
  | runtimeError

/-- First-match lookup in a decoded dict (keys are distinct after JSON
decoding, so first-match agrees with Python `dict.__getitem__`). -/
def lookupKey (kvs : List (String × Json)) (key : String) : Option Json :=
  match kvs with
  | [] => none
  | (k, v) :: rest => if k = key then some v else lookupKey rest key

/-- Python `dict.get(key, default)`. -/
def getD (kvs : List (String × Json)) (key : String) (dflt : Json) : Json :=
  (lookupKey kvs key).getD dflt

/-- Python truthiness of a decoded JSON value (`if x:`): `None`, `False`,
zero, and empty containers/strings are falsy. -/
def pyTruthy : Json → Bool
  | .null => false
  | .bool b => b
  | .num q => q != 0
  | .str s => s != ""
  | .arr xs => !xs.isEmpty
  | .obj kvs => !kvs.isEmpty

/-- Python truthiness of an optional string (`bearer_token or ...`,
`if not self.bearer_token`): `None` and `""` are falsy. -/
def pyTruthyOpt : Option String → Bool
  | none => false
  | some s => s != ""

/-- Python `a or b` on optional strings: yields `a` when truthy, else `b`. -/
def orElsePy (a b : Option String) : Option String :=
  if pyTruthyOpt a then a else b

/-- The characters stripped by Python `str.strip()` (ASCII whitespace;
non-ASCII Unicode whitespace is not modelled, no claim touches it). -/
def isPySpace (c : Char) : Bool :=
  c = ' ' || c = '\t' || c = '\n' || c = '\r' || c = '\x0b' || c = '\x0c'

/-- Python `s.strip()`. -/
def pyStrip (s : String) : String :=
  String.mk (((s.data.dropWhile isPySpace).reverse.dropWhile isPySpace).reverse)

/-- Python iteration `for item in x`: lists yield their elements in order,
strings yield their characters as 1-character strings, dicts yield their keys
in insertion order; `None`, booleans and numbers raise `TypeError`
("object is not iterable"). -/
def pyIter : Json → Except PyErr (List Json)
  | .arr xs => .ok xs
  | .str s => .ok (s.data.map fun c => Json.str (String.mk [c]))
  | .obj kvs => .ok (kvs.map fun kv => Json.str kv.1)
  | .null => .error .typeError
  | .bool _ => .error .typeError
  | .num _ => .error .typeError

/-- Value of a list of decimal digits (helper for `parsePyFloat`). -/
def digitsVal (cs : List Char) : Nat :=
  cs.foldl (fun acc c => acc * 10 + (c.toNat - '0'.toNat)) 0

/-- Python `float(s)` on a string: optional sign, decimal digits with an
optional single point, surrounding whitespace allowed. Exponent, `inf` and
`nan` forms are not modelled (no claim exercises them); unparseable input is
`none` (Python raises `ValueError`). -/
def parsePyFloat (s : String) : Option ℚ :=
  let t := (pyStrip s).data
  let core : List Char → Option ℚ := fun u =>
    let intPart := u.takeWhile Char.isDigit
    let rest := u.dropWhile Char.isDigit
    match rest with
    | [] => if intPart.isEmpty then none else some (digitsVal intPart)
    | '.' :: frac =>
      if frac.all Char.isDigit && !(intPart.isEmpty && frac.isEmpty) then
        some ((digitsVal intPart : ℚ) + (digitsVal frac : ℚ) / (10 : ℚ) ^ frac.length)
      else none
    | _ => none
  match t with
  | '-' :: u => (core u).map (fun q => -q)
  | '+' :: u => core u
  | u => core u

/-- Python `float(x)` on a decoded JSON value: numbers pass through, booleans
become 0/1, numeric strings are parsed (`ValueError` otherwise), and `None`,
lists and dicts raise `TypeError`. -/
def pyFloat : Json → Except PyErr ℚ
  | .num q => .ok q
  | .bool b => .ok (if b then 1 else 0)
  | .str s =>
    match parsePyFloat s with
    | some q => .ok q
    | none => .error .valueError
  | .null => .error .typeError
  | .arr _ => .error .typeError
  | .obj _ => .error .typeError

/-- Remove factor `p` from `n`: `(count, remainder)`. `fuel ≥ n` makes the
result exact. -/
def stripFactor (p : Nat) (fuel : Nat) (n : Nat) : Nat × Nat :=
  match fuel with
  | 0 => (0, n)
  | fuel + 1 =>
    if 2 ≤ p && n % p == 0 && n != 0 then
      let r := stripFactor p fuel (n / p)
      (r.1 + 1, r.2)
    else (0, n)

/-- Left-pad a numeral string with zeros to length `k`. -/
def padLeft (s : String) (k : Nat) : String :=
  String.mk (List.replicate (k - s.length) '0') ++ s

/-- Drop trailing zeros of a fractional part, keeping at least one digit. -/
def trimZeros (s : String) : String :=
  let t := (s.data.reverse.dropWhile (· = '0')).reverse
  if t.isEmpty then "0" else String.mk t

/-- Python `repr` of a float, modelled on exact rationals: the terminating
decimal expansion with trailing zeros trimmed (and `.0` on integers). A
rational with non-terminating expansion (unreachable from binary floats) is
rendered as a fraction. Shortest-roundtrip abbreviation of binary floats and
the int/float distinction are not modelled; no claim observes them. -/
def ratRepr (q : ℚ) : String :=
  let sign := if q < 0 then "-" else ""
  let n := q.num.natAbs
  let d := q.den
  let a := (stripFactor 2 d d).1
  let r2 := (stripFactor 2 d d).2
  let b := (stripFactor 5 r2 r2).1
  let r5 := (stripFactor 5 r2 r2).2
  if r5 = 1 then
    let k := max a b
    if k = 0 then sign ++ toString n ++ ".0"
    else
      let digits := n * 10 ^ k / d
      sign ++ toString (digits / 10 ^ k) ++ "." ++
        trimZeros (padLeft (toString (digits % 10 ^ k)) k)
  else sign ++ toString n ++ "/" ++ toString d

mutual

/-- Python `repr` of a decoded JSON value (strings quoted, containers
rendered recursively). -/
def pyRepr : Json → String
  | .null => "None"
  | .bool true => "True"
  | .bool false => "False"
  | .num q => ratRepr q
  | .str s => "\x27" ++ s ++ "\x27"
  | .arr xs => "[" ++ pyReprList xs ++ "]"
  | .obj kvs => "\x7b" ++ pyReprObj kvs ++ "\x7d"

/-- Comma-separated `repr`s of list elements. -/
def pyReprList : List Json → String
  | [] => ""
  | [x] => pyRepr x
  | x :: xs => pyRepr x ++ ", " ++ pyReprList xs

/-- Comma-separated `repr`s of dict entries. -/
def pyReprObj : List (String × Json) → String
  | [] => ""
  | [(k, v)] => "\x27" ++ k ++ "\x27: " ++ pyRepr v
  | (k, v) :: kvs => "\x27" ++ k ++ "\x27: " ++ pyRepr v ++ ", " ++ pyReprObj kvs

end

/-- Python `str(x)` as used by f-string interpolation: identity on strings,
`repr` otherwise. -/
def pyStr : Json → String
  | .str s => s
  | j => pyRepr j

/-- Round to the nearest integer, ties to even — the rounding of Python's
fixed-point float formatting. (Python breaks ties on the exact binary value
of the float; here ties are broken on the exact rational. No claim exercises
a tie.) -/
def roundHalfEven (n d : ℤ) : ℤ :=
  let f := n.fdiv d
  let r := n - f * d
  if 2 * r < d then f
  else if d < 2 * r then f + 1
  else if f % 2 = 0 then f else f + 1

/-- Python `f"{x:.0f}"` on the rational model of a float. -/
def fmt0 (q : ℚ) : String :=
  toString (roundHalfEven q.num q.den)

/-- Python `f"{x:.1f}"` on the rational model of a float: round `q * 10`
(the unreduced fraction `10 num / den` denotes the same rational) to the
nearest integer and place the decimal point. -/
def fmt1 (q : ℚ) : String :=
  let n := roundHalfEven (q.num * 10) q.den
  let sign := if n < 0 then "-" else ""
  sign ++ toString (n.natAbs / 10) ++ "." ++ toString (n.natAbs % 10)

/-- Python `f"{i:2d}"`: right-align in width 2. -/
def pad2 (i : Nat) : String :=
  if i < 10 then " " ++ toString i else toString i

/-- The `Movie` dataclass (source lines 10-19). Python's dataclass stores
whatever value each constructor argument holds, regardless of the type
annotations, so the six `item.get`-sourced fields are decoded JSON values
(`Json.null` is Python `None`); `popularity` and `vote_average` went through
`float(...)` before construction and so are rationals. -/
structure Movie where
  id : Json
  title : Json
  original_title : Json
  release_date : Json
  overview : Json
  popularity : ℚ
  vote_average : ℚ
  poster_path : Json

/-- The f-string of `short_str` (source line 23), given the computed year. -/
def movieLine (year : String) (m : Movie) : String :=
  "[" ++ year ++ "] " ++ pyStr m.title ++ " ( - " ++ fmt1 m.vote_average ++
    ", pop " ++ fmt0 m.popularity ++ ")"

/-- Python `s.split("-")[0]`: the prefix of `s` before the first `-` (for a
one-character separator the first chunk is exactly the characters before the
first occurrence; on `""` Python yields `[""]` whose head is `""`). -/
def splitDashHead (s : String) : String :=
  String.mk (s.data.takeWhile fun c => c ≠ '-')

/-- `Movie.short_str` (source lines 21-23): when `release_date` is truthy it
must be a string (`.split` on anything else raises `AttributeError`) and the
year is the prefix before the first `"-"`; otherwise the year is `"s/f"`. -/
def Movie.short_str (m : Movie) : Except PyErr String :=
  if pyTruthy m.release_date then
    match m.release_date with
    | .str s => .ok (movieLine (splitDashHead s) m)
    | _ => .error .attributeError
  else .ok (movieLine "s/f" m)

/-- The `Movie(...)` construction for one `results` item (source lines
61-72). A non-dict item raises `AttributeError` at the first `item.get`;
`float` of the `popularity` and then the `vote_average` value can raise;
`item.get("id")` defaults to `None`. -/
def movie_of_item (item : Json) : Except PyErr Movie :=
  match item with
  | .obj kvs =>
    match pyFloat (getD kvs "popularity" (.num 0)) with
    | .error e => .error e
    | .ok pop =>
      match pyFloat (getD kvs "vote_average" (.num 0)) with
      | .error e => .error e
      | .ok va =>
        .ok { id := getD kvs "id" .null
              title := getD kvs "title" (.str "")
              original_title := getD kvs "original_title" (.str "")
              release_date := getD kvs "release_date" .null
              overview := getD kvs "overview" (.str "")
              popularity := pop
              vote_average := va
              poster_path := getD kvs "poster_path" .null }
  | _ => .error .attributeError

/-- The accumulation loop of `find_by_title` (source lines 58-74): one
`Movie` appended per iterated item, aborting at the first raise. -/
def buildMovies : List Json → Except PyErr (List Movie)
  | [] => .ok []
  | j :: js =>
    match movie_of_item j with
    | .error e => .error e
    | .ok m =>
      match buildMovies js with
      | .error e => .error e
      | .ok ms => .ok (m :: ms)

/-- The payload-parsing part of `find_by_title` (source lines 60-74):
`payload.get("results", [])` (raising `AttributeError` on a non-dict
payload), then iterate and build. -/
def parse_results (payload : Json) : Except PyErr (List Movie) :=
  match payload with
  | .obj kvs =>
    match pyIter (getD kvs "results" (.arr [])) with
    | .error e => .error e
    | .ok items => buildMovies items
  | _ => .error .attributeError

/-- An HTTP response as seen by `search_movies`: a status code and the
decoded JSON body (`none` when the body is not valid JSON and `resp.json()`
raises). -/
structure HttpResponse where
  status : Nat
  jsonBody : Option Json

/-- The `TMDBClient` state after a successful `__init__` (source lines
26-38). The `requests.Session` and its headers are transport details with no
observable behavior in the embedding. -/
structure TMDBClient where
  bearer_token : String
  lang : String

/-- `TMDBClient.__init__` (source lines 26-38): `bearer_token or
os.getenv("TMDB_BEARER_TOKEN")`, then `RuntimeError` when the result is
falsy (`None` or empty). `env` is the value of the environment variable
after `load_dotenv`. -/
def TMDBClient.construct (bearer_token : Option String) (env : Option String)
    (lang : String) : Except PyErr TMDBClient :=
  match orElsePy bearer_token env with
  | some s => if s = "" then .error .runtimeError else .ok ⟨s, lang⟩
  | none => .error .runtimeError

/-- `TMDBClient.search_movies` (source lines 40-50) applied to the response
the network returns: `resp.raise_for_status()` raises `requests.HTTPError`
exactly for 4xx and 5xx statuses (modelled from the requests library's
documented behavior), then `resp.json()` decodes the body or raises. Query
parameter assembly has no observable effect on the response in the
embedding. -/
def TMDBClient.search_movies (resp : HttpResponse) : Except PyErr Json :=
  if 400 ≤ resp.status ∧ resp.status < 600 then
    .error (.httpError resp.status resp.jsonBody)
  else
    match resp.jsonBody with
    | some j => .ok j
    | none => .error .jsonDecodeError

/-- `MovieService.find_by_title` (source lines 56-74): perform the search
for the given title against the network (a function from query title to
HTTP response) and parse the payload. Client failures propagate unchanged. -/
def MovieService.find_by_title (net : String → HttpResponse)
    (title : String) : Except PyErr (List Movie) :=
  match TMDBClient.search_movies (net title) with
  | .error e => .error e
  | .ok payload => parse_results payload

/-- Is this exception an instance of `requests.HTTPError` (the class matched
by the presenter's first `except`, source line 97)? -/
def isHttpError : PyErr → Bool
  | .httpError _ _ => true
  | _ => false

/-- Rendering of an exception by `str(...)` in the presenter's f-strings.
The exact message text of Python exceptions is abstracted; only the prefix
the presenter adds is observable in the claims. -/
def excStr : PyErr → String
  | .httpError status _ => toString status ++ " Error"
  | .jsonDecodeError => "Expecting value"
  | .typeError => "object is not iterable"
  | .attributeError => "object has no attribute"
  | .valueError => "could not convert string to float"
  | .runtimeError => "Falta TMDB_BEARER_TOKEN en ambiente o no se paso el token al constructor"

/-- The line the presenter prints for a caught exception (source lines
97-100): `requests.HTTPError` gets the HTTP message, anything else the
generic one. -/
def excLine (e : PyErr) : String :=
  if isHttpError e then "Error HTTP: " ++ excStr e
  else "Ocurrio un error: " ++ excStr e

/-- The result-printing loop (source lines 93-94), numbering from `i`: the
lines printed before `short_str` first raises, and the raised exception if
any. -/
def renderAll (i : Nat) : List Movie → List String × Option PyErr
  | [] => ([], none)
  | m :: ms =>
    match m.short_str with
    | .ok s =>
      let r := renderAll (i + 1) ms
      ((pad2 i ++ ". " ++ s) :: r.1, r.2)
    | .error e => ([], some e)

/-- What one `ConsoleUI.run` observably does: the arguments of its `print`
calls in order, and whether the service (and hence the network) was
invoked. -/
structure RunResult where
  lines : List String
  svcCalled : Bool

/-- `ConsoleUI.run` (source lines 80-100) on the entered input line, with
the service call abstracted as a function from title to result. Blank input
returns before any service use; a raise from the service or from a
`short_str` in the loop is caught at the outer boundary and printed after
whatever was already printed. -/
def ConsoleUI.run (svc : String → Except PyErr (List Movie))
    (title : String) : RunResult :=
  if pyStrip title = "" then ⟨["Debes ingresar un texto de busqueda."], false⟩
  else
    match svc title with
    | .error e => ⟨[excLine e], true⟩
    | .ok movies =>
      if movies.isEmpty then ⟨["No se encontraron resultados."], true⟩
      else
        let r := renderAll 1 movies
        ⟨("\nResultados para \x27" ++ title ++ "\x27:\n") :: r.1 ++
          (match r.2 with
           | some e => [excLine e]
           | none => ["\n(Primera pagina de resultados)"]), true⟩

/-- Exit status of the process. -/
inductive ExitStatus where
  | success
  | failure
deriving DecidableEq

/-- The `__main__` block (source lines 102-107): construct the client (no
explicit token; `env` is the credential variable after `load_dotenv`), then
run the UI. An exception escaping `TMDBClient()` is uncaught, so the process
prints nothing of the UI and exits non-zero; inside `run` every exception is
caught, so the process exits zero. -/
def mainProgram (env : Option String) (title : String)
    (net : String → HttpResponse) : ExitStatus × List String :=
  match TMDBClient.construct none env "es-MX" with
  | .error _ => (.failure, [])
  | .ok _ => (.success, (ConsoleUI.run (MovieService.find_by_title net) title).lines)

/-! ### Concrete fixtures used by witnesses and counterexamples -/

/-- The rational `8.1`, as an explicit normalized fraction. -/
def ratEightPointOne : ℚ := ⟨81, 10, by norm_num, by norm_num⟩

/-- The single result item of the end-to-end payload of spec §8. -/
def matrixItem : Json :=
  .obj [("id", .num 1), ("title", .str "Matrix"),
    ("release_date", .str "1999-03-31"), ("vote_average", .num ratEightPointOne),
    ("popularity", .num 23)]

/-- The end-to-end payload of spec §8. -/
def matrixPayload : Json := .obj [("results", .arr [matrixItem])]

/-- A network that answers every query with status 200 and the Matrix
payload. -/
def matrixNet : String → HttpResponse := fun _ => ⟨200, some matrixPayload⟩

/-- A payload whose single `results` item is a mapping with a
non-float-convertible `popularity`. -/
def badItemPayload : Json :=
  .obj [("results", .arr [.obj [("popularity", .null)]])]

/-- A network answering with status 200 and `badItemPayload`. -/
def badItemNet : String → HttpResponse := fun _ => ⟨200, some badItemPayload⟩

/-- A payload whose `results` field is present but `null` (wrong-typed). -/
def nullResultsPayload : Json := .obj [("results", .null)]

/-- A network answering with status 200 and `nullResultsPayload`. -/
def nullResultsNet : String → HttpResponse := fun _ => ⟨200, some nullResultsPayload⟩

/-- A service call that always raises a 404 `requests.HTTPError`. -/
def failSvc : String → Except PyErr (List Movie) :=
  fun _ => .error (.httpError 404 none)

/-- A service call that always succeeds with no results. -/
def emptySvc : String → Except PyErr (List Movie) := fun _ => .ok []

/-- A network answering with status 200 and a payload with no `results`
key. -/
def emptyObjNet : String → HttpResponse := fun _ => ⟨200, some (.obj [])⟩

/-! ### Theorems -/

/-- Reduction of `movie_of_item` on a dict item (definitional). -/
theorem movie_of_item_obj (kvs : List (String × Json)) :
    movie_of_item (.obj kvs) =
      match pyFloat (getD kvs "popularity" (.num 0)) with
      | .error e => .error e
      | .ok pop =>
        match pyFloat (getD kvs "vote_average" (.num 0)) with
        | .error e => .error e
        | .ok va =>
          .ok { id := getD kvs "id" .null
                title := getD kvs "title" (.str "")
                original_title := getD kvs "original_title" (.str "")
                release_date := getD kvs "release_date" .null
                overview := getD kvs "overview" (.str "")
                popularity := pop
                vote_average := va
                poster_path := getD kvs "poster_path" .null } := rfl

/-- C3: for every `results` item from which a `Movie` is constructed, the
default-filling law holds: a missing `vote_average` or `popularity` yields
`0.0`, missing `title`, `original_title` or `overview` yield the empty
string, and missing `release_date` or `poster_path` yield `None`. -/
theorem movie_default_filling (kvs : List (String × Json)) (m : Movie)
    (h : movie_of_item (.obj kvs) = .ok m) :
    (lookupKey kvs "vote_average" = none → m.vote_average = 0) ∧
    (lookupKey kvs "popularity" = none → m.popularity = 0) ∧
    (lookupKey kvs "title" = none → m.title = .str "") ∧
    (lookupKey kvs "original_title" = none → m.original_title = .str "") ∧
    (lookupKey kvs "overview" = none → m.overview = .str "") ∧
    (lookupKey kvs "release_date" = none → m.release_date = .null) ∧
    (lookupKey kvs "poster_path" = none → m.poster_path = .null) := by
  rw [movie_of_item_obj] at h
  cases hpop : pyFloat (getD kvs "popularity" (Json.num 0)) with
  | error e => rw [hpop] at h; simp at h
  | ok pop =>
    rw [hpop] at h
    cases hva : pyFloat (getD kvs "vote_average" (Json.num 0)) with
    | error e => rw [hva] at h; simp at h
    | ok va =>
      rw [hva] at h
      simp only [Except.ok.injEq] at h
      subst h
      refine ⟨fun hn => ?_, fun hn => ?_, fun hn => ?_, fun hn => ?_,
        fun hn => ?_, fun hn => ?_, fun hn => ?_⟩
      · simp [getD, hn, pyFloat] at hva
        first
        | exact hva
        | exact hva.symm
      · simp [getD, hn, pyFloat] at hpop
        first
        | exact hpop
        | exact hpop.symm
      · simp [getD, hn]
      · simp [getD, hn]
      · simp [getD, hn]
      · simp [getD, hn]
      · simp [getD, hn]

/-- C3 witness: a concrete item with every modelled field absent yields the
default-filled `Movie`. -/
theorem movie_default_filling_witness :
    (Movie.mk .null (.str "") (.str "") .null (.str "") 0 0 .null).vote_average = 0 :=
  (movie_default_filling [] _ rfl).1 rfl

/-- C9 counterexample: an item with no `id` key still constructs a `Movie`,
whose `id` is `None` — not an integer, and no error is raised, so `id` is
not required. -/
theorem movie_missing_id_is_none :
    movie_of_item (.obj []) =
      .ok ⟨.null, .str "", .str "", .null, .str "", 0, 0, .null⟩ := rfl

/-- C9 (amended): for every `Movie` constructed from a `results` item, the
`id` field is exactly the item's `id` value when the key is present and
`None` when it is absent (Python's `dict.get` default); the program never
mutates the record after construction. -/
theorem movie_id_from_item (kvs : List (String × Json)) (m : Movie)
    (h : movie_of_item (.obj kvs) = .ok m) :
    m.id = (lookupKey kvs "id").getD .null := by
  rw [movie_of_item_obj] at h
  cases hpop : pyFloat (getD kvs "popularity" (Json.num 0)) with
  | error e => rw [hpop] at h; simp at h
  | ok pop =>
    rw [hpop] at h
    cases hva : pyFloat (getD kvs "vote_average" (Json.num 0)) with
    | error e => rw [hva] at h; simp at h
    | ok va =>
      rw [hva] at h
      simp only [Except.ok.injEq] at h
      subst h
      rfl

/-- C9 witness: a concrete item carrying `id = 7` yields a `Movie` whose
`id` is that value. -/
theorem movie_id_from_item_witness :
    (Movie.mk (.num 7) (.str "") (.str "") .null (.str "") 0 0 .null).id =
      (lookupKey [("id", .num 7)] "id").getD .null :=
  movie_id_from_item [("id", .num 7)] _ rfl

/-- C10: a `results` item whose `release_date` is present but equal to the
empty string yields a `Movie` with `release_date = ""`, and `short_str`
renders the year as `"s/f"`, exactly as when `release_date` is `None`
(Python truthiness makes `""` falsy). -/
theorem empty_release_date_like_absent :
    (∀ (i t ot ov pp : Json) (pop va : ℚ),
      (Movie.mk i t ot (.str "") ov pop va pp).short_str =
        .ok (movieLine "s/f" (Movie.mk i t ot (.str "") ov pop va pp)) ∧
      (Movie.mk i t ot (.str "") ov pop va pp).short_str =
        (Movie.mk i t ot .null ov pop va pp).short_str) ∧
    movie_of_item (.obj [("id", .num 3), ("release_date", .str "")]) =
      .ok ⟨.num 3, .str "", .str "", .str "", .str "", 0, 0, .null⟩ := by
  exact ⟨fun i t ot ov pp pop va => ⟨rfl, rfl⟩, rfl⟩

/-- C5: for every blank or whitespace-only input, the presenter prints the
"must enter search text" message and returns normally, with the service (and
hence the network) never invoked — the result does not depend on `svc` and
records `svcCalled = false`. -/
theorem blank_input_no_network (svc : String → Except PyErr (List Movie))
    (title : String) (h : pyStrip title = "") :
    ConsoleUI.run svc title = ⟨["Debes ingresar un texto de busqueda."], false⟩ := by
  unfold ConsoleUI.run
  rw [if_pos h]

/-- C5 witness: whitespace-only input `"   "` with the empty service. -/
theorem blank_input_no_network_witness :
    ConsoleUI.run emptySvc "   " = ⟨["Debes ingresar un texto de busqueda."], false⟩ :=
  blank_input_no_network emptySvc "   " (by decide)

/-- C8: with no credential argument and none in the environment, client
construction fails with the missing-credential `RuntimeError` before any UI
interaction (the process prints nothing and exits non-zero); conversely a
non-empty credential from either source makes construction succeed. -/
theorem construct_credential :
    (∀ lang : String, TMDBClient.construct none none lang = .error .runtimeError) ∧
    (∀ (bearer env : Option String) (lang : String),
      pyTruthyOpt bearer = true ∨ pyTruthyOpt env = true →
      ∃ c, TMDBClient.construct bearer env lang = .ok c) ∧
    (∀ (title : String) (net : String → HttpResponse),
      mainProgram none title net = (.failure, [])) := by
  refine ⟨fun lang => rfl, ?_, fun title net => rfl⟩
  intro bearer env lang h
  cases bearer with
  | some s =>
    by_cases hs : s = ""
    · subst hs
      cases env with
      | some t =>
        have ht : t ≠ "" := by
          rcases h with h | h
          · simp [pyTruthyOpt] at h
          · simpa [pyTruthyOpt] using h
        exact ⟨⟨t, lang⟩, by simp [TMDBClient.construct, orElsePy, pyTruthyOpt, ht]⟩
      | none => rcases h with h | h <;> simp [pyTruthyOpt] at h
    · exact ⟨⟨s, lang⟩, by simp [TMDBClient.construct, orElsePy, pyTruthyOpt, hs]⟩
  | none =>
    cases env with
    | some t =>
      have ht : t ≠ "" := by
        rcases h with h | h
        · simp [pyTruthyOpt] at h
        · simpa [pyTruthyOpt] using h
      exact ⟨⟨t, lang⟩, by simp [TMDBClient.construct, orElsePy, pyTruthyOpt, ht]⟩
    | none => rcases h with h | h <;> simp [pyTruthyOpt] at h

/-- C8 witness: a non-empty token passed as argument makes construction
succeed. -/
theorem construct_credential_witness :
    ∃ c, TMDBClient.construct (some "tok") none "es-MX" = .ok c :=
  construct_credential.2.1 (some "tok") none "es-MX" (Or.inl (by decide))

/-- Reduction of `parse_results` on a dict payload (definitional). -/
theorem parse_results_obj (kvs : List (String × Json)) :
    parse_results (.obj kvs) =
      match pyIter (getD kvs "results" (.arr [])) with
      | .error e => .error e
      | .ok items => buildMovies items := rfl

/-- When every iterated item constructs a `Movie`, the loop of
`find_by_title` succeeds with one `Movie` per item, in order. -/
theorem buildMovies_spec (items : List Json)
    (hitems : ∀ j ∈ items, ∃ m, movie_of_item j = .ok m) :
    ∃ ms, buildMovies items = .ok ms ∧ ms.length = items.length ∧
      ∀ (i : Nat) (hi : i < items.length) (hm : i < ms.length),
        movie_of_item (items.get ⟨i, hi⟩) = .ok (ms.get ⟨i, hm⟩) := by
  induction items with
  | nil => exact ⟨[], rfl, rfl, fun i hi _ => absurd hi (Nat.not_lt_zero i)⟩
  | cons j js ih =>
    obtain ⟨m, hm⟩ := hitems j (List.mem_cons_self j js)
    obtain ⟨ms, hms, hlen, hidx⟩ := ih fun x hx => hitems x (List.mem_cons_of_mem j hx)
    refine ⟨m :: ms, ?_, by simp [hlen], ?_⟩
    · unfold buildMovies
      rw [hm, hms]
    · intro i hi hm2
      cases i with
      | zero => exact hm
      | succ n => exact hidx n (Nat.lt_of_succ_lt_succ hi) (Nat.lt_of_succ_lt_succ hm2)

/-- C1 counterexample: a payload whose `results` is a sequence of exactly
one mapping item (with `popularity = null`) makes `find_by_title` raise
`TypeError` (from `float(None)`) instead of returning one `Movie` record. -/
theorem find_by_title_raises_on_bad_item :
    MovieService.find_by_title badItemNet "Matrix" = .error .typeError := rfl

/-- C1 (amended): for every payload whose `results` field is a sequence of
N mapping items, each of whose `popularity` and `vote_average` values (when
present) are convertible by `float`, `find_by_title` returns exactly N
`Movie` records, one constructed per item, in the same input order, without
deduplicating, sorting, or filtering. -/
theorem find_by_title_one_movie_per_item
    (net : String → HttpResponse) (title : String)
    (kvs : List (String × Json)) (items : List Json)
    (hnet : TMDBClient.search_movies (net title) = .ok (.obj kvs))
    (hres : lookupKey kvs "results" = some (.arr items))
    (hitems : ∀ j ∈ items, ∃ m, movie_of_item j = .ok m) :
    ∃ ms, MovieService.find_by_title net title = .ok ms ∧
      ms.length = items.length ∧
      ∀ (i : Nat) (hi : i < items.length) (hm : i < ms.length),
        movie_of_item (items.get ⟨i, hi⟩) = .ok (ms.get ⟨i, hm⟩) := by
  obtain ⟨ms, hms, hlen, hidx⟩ := buildMovies_spec items hitems
  refine ⟨ms, ?_, hlen, hidx⟩
  unfold MovieService.find_by_title
  rw [hnet]
  show parse_results (.obj kvs) = .ok ms
  rw [parse_results_obj]
  unfold getD
  rw [hres]
  exact hms

/-- C1 witness: the Matrix payload has one mapping item and yields exactly
one `Movie`, built from that item. -/
theorem find_by_title_one_movie_per_item_witness :
    ∃ ms, MovieService.find_by_title matrixNet "Matrix" = .ok ms ∧
      ms.length = [matrixItem].length ∧
      ∀ (i : Nat) (hi : i < [matrixItem].length) (hm : i < ms.length),
        movie_of_item ([matrixItem].get ⟨i, hi⟩) = .ok (ms.get ⟨i, hm⟩) :=
  find_by_title_one_movie_per_item matrixNet "Matrix"
    [("results", .arr [matrixItem])] [matrixItem] rfl rfl
    (fun j hj => by
      simp only [List.mem_singleton] at hj
      subst hj
      exact ⟨_, rfl⟩)

/-- C2 counterexample: a payload whose `results` field is present but
wrong-typed (`null`, not a sequence) makes `find_by_title` raise `TypeError`
(`for item in None`) — it is not treated as an empty sequence. -/
theorem find_by_title_null_results_raises :
    MovieService.find_by_title nullResultsNet "Matrix" = .error .typeError := rfl

/-- C2 (amended): an absent `results` field is treated as an empty sequence
and `find_by_title` returns the empty list without error; but a present,
wrong-typed (non-iterable) `results` such as `null` raises `TypeError`
rather than being treated as empty. -/
theorem absent_results_empty_list :
    (∀ (net : String → HttpResponse) (title : String) (kvs : List (String × Json)),
      TMDBClient.search_movies (net title) = .ok (.obj kvs) →
      lookupKey kvs "results" = none →
      MovieService.find_by_title net title = .ok []) ∧
    (∀ kvs : List (String × Json),
      lookupKey kvs "results" = some .null →
      parse_results (.obj kvs) = .error .typeError) := by
  constructor
  · intro net title kvs hnet hres
    unfold MovieService.find_by_title
    rw [hnet]
    show parse_results (.obj kvs) = .ok []
    rw [parse_results_obj]
    unfold getD
    rw [hres]
    rfl
  · intro kvs hres
    rw [parse_results_obj]
    unfold getD
    rw [hres]
    rfl

/-- C2 witness: a payload with no `results` key yields the empty list. -/
theorem absent_results_empty_list_witness :
    MovieService.find_by_title emptyObjNet "Matrix" = .ok [] :=
  absent_results_empty_list.1 emptyObjNet "Matrix" [] rfl rfl

/-- C4: `short_str` renders the year as the prefix of `release_date` before
the first `-` (so `"2010"` from `"2010-05-01"`) and as `"s/f"` when
`release_date` is `None`, in the format
`[year] title ( - vote_average to 1 decimal, pop popularity rounded)`; and
the end-to-end Matrix scenario prints exactly the header, the line
`" 1. [1999] Matrix ( - 8.1, pop 23)"`, and the first-page note. -/
theorem short_str_year_and_format :
    (∀ m : Movie, m.release_date = .str "2010-05-01" →
      m.short_str = .ok ("[2010] " ++ pyStr m.title ++ " ( - " ++
        fmt1 m.vote_average ++ ", pop " ++ fmt0 m.popularity ++ ")")) ∧
    (∀ m : Movie, m.release_date = .null →
      m.short_str = .ok ("[s/f] " ++ pyStr m.title ++ " ( - " ++
        fmt1 m.vote_average ++ ", pop " ++ fmt0 m.popularity ++ ")")) ∧
    ConsoleUI.run (MovieService.find_by_title matrixNet) "Matrix" =
      ⟨["\nResultados para \x27Matrix\x27:\n",
        " 1. [1999] Matrix ( - 8.1, pop 23)",
        "\n(Primera pagina de resultados)"], true⟩ := by
  refine ⟨fun m h => ?_, fun m h => ?_, ?_⟩
  · unfold Movie.short_str
    rw [h]
    exact rfl
  · unfold Movie.short_str
    rw [h]
    exact rfl
  · exact rfl

/-- C4 witness: a concrete `Movie` with `release_date = "2010-05-01"`
renders year `2010`. -/
theorem short_str_year_witness :
    (Movie.mk .null (.str "Origen") (.str "") (.str "2010-05-01") (.str "") 0 0 .null).short_str =
      .ok ("[2010] " ++ pyStr (Json.str "Origen") ++ " ( - " ++
        fmt1 0 ++ ", pop " ++ fmt0 0 ++ ")") :=
  short_str_year_and_format.1 _ rfl

/-- C6 counterexample: a 304 response has a non-2xx status, yet
`search_movies` returns the decoded payload without raising — requests'
`raise_for_status` only raises for 4xx/5xx statuses. -/
theorem search_movies_304_ok :
    TMDBClient.search_movies ⟨304, some (.obj [])⟩ = .ok (.obj []) := rfl

/-- C6 (amended): every 4xx/5xx response makes `search_movies` fail with an
`HTTPError` carrying the status and body; the presenter catches exactly that
error class and prints the HTTP-error line, and prints the generic error
line for any other exception, returning normally either way. -/
theorem http_error_handling :
    (∀ resp : HttpResponse, 400 ≤ resp.status → resp.status < 600 →
      TMDBClient.search_movies resp = .error (.httpError resp.status resp.jsonBody)) ∧
    (∀ (svc : String → Except PyErr (List Movie)) (title : String) (e : PyErr),
      pyStrip title ≠ "" → svc title = .error e →
      ConsoleUI.run svc title =
        ⟨[if isHttpError e then "Error HTTP: " ++ excStr e
          else "Ocurrio un error: " ++ excStr e], true⟩) := by
  refine ⟨fun resp h1 h2 => ?_, fun svc title e hne hsvc => ?_⟩
  · unfold TMDBClient.search_movies
    rw [if_pos ⟨h1, h2⟩]
  · unfold ConsoleUI.run
    rw [if_neg hne, hsvc]
    exact rfl

/-- C6 witness: a 404 response raises `HTTPError` with its status and body,
and a presenter whose service raises a 404 `HTTPError` prints exactly the
HTTP-error line. -/
theorem http_error_handling_witness :
    TMDBClient.search_movies ⟨404, some (.str "oops")⟩ =
      .error (.httpError 404 (some (.str "oops"))) ∧
    ConsoleUI.run failSvc "Matrix" = ⟨["Error HTTP: 404 Error"], true⟩ :=
  ⟨http_error_handling.1 ⟨404, some (.str "oops")⟩ (by norm_num) (by norm_num),
   http_error_handling.2 failSvc "Matrix" (.httpError 404 none) (by decide) rfl⟩

/-- C7 counterexample: with no credential in argument or environment, the
startup `TMDBClient()` raises an uncaught `RuntimeError`, so the process
exits with a non-zero status (and prints none of the UI output). -/
theorem main_missing_credential_failure :
    mainProgram none "Matrix" matrixNet = (.failure, []) := rfl

/-- C7 (amended): once client construction succeeds (a truthy credential is
available), every failure in the rest of the run is caught and printed, and
the process exits with success status; but a missing credential at startup
escapes uncaught and exits non-zero. -/
theorem main_exits_success_with_credential :
    ∀ (env : Option String) (title : String) (net : String → HttpResponse),
      pyTruthyOpt env = true → (mainProgram env title net).1 = .success := by
  intro env title net h
  cases env with
  | none => simp [pyTruthyOpt] at h
  | some s =>
    have hs : s ≠ "" := by simpa [pyTruthyOpt] using h
    unfold mainProgram TMDBClient.construct orElsePy
    simp [pyTruthyOpt, hs]

/-- C7 witness: with a credential in the environment, the process exits
successfully (here even though the run itself succeeds trivially). -/
theorem main_exits_success_witness :
    (mainProgram (some "tok") "Matrix" matrixNet).1 = .success :=
  main_exits_success_with_credential (some "tok") "Matrix" matrixNet (by decide)

end MoviesAPI
